import Mathlib

/-!
# STRling.js — pattern-fragment composition engine, shallow embedding

Embedding of the repository's `src/STRling/simply/static.js` (two module
versions: the CommonJS named-class factories and the ES-module lookaround
builders) over the Fragment/`Pattern` data model.  The `Pattern` class,
the literal constructor `lit`, the quantifier applier (`Pattern.call`)
and `merge` live in `pattern.js`, which is not part of the provided
sources; those are modelled from the spec (sections 3, 4.1-4.4) and are
marked as such in their doc comments.  Everything else is translated
directly from `static.js`.
-/

namespace STRling

/-- Error kinds from the spec's error taxonomy (section 7):
`InvalidArgument` (wrong type, zero-argument merge) and
`InvalidQuantifier` (malformed or semantically invalid min/max). -/
inductive ErrorKind where
  | invalidArgument
  | invalidQuantifier
deriving DecidableEq, Repr

/-- The error value thrown by the library (`STRlingError` in the code),
classified by the spec's error kind and carrying the thrown message. -/
structure STRlingError where
  kind : ErrorKind
  message : String
deriving DecidableEq, Repr

/-- Modelled from the spec (section 3): the Fragment record — the sole
entity of the data model.  `pattern.js`, which declares the `Pattern`
class, is not under the provided sources.  Fields are the raw regex
`text` plus the three classification flags. -/
structure Pattern where
  text : String
  isAtomic : Bool
  isNegatedClass : Bool
  isComposite : Bool
deriving DecidableEq, Repr

/-- Modelled from the spec (section 4.2): `makeFragment(text,
isAtomic=false, isNegatedClass=false, isComposite=false)`.  The JS
call sites in `static.js` pass the flags positionally
(`new Pattern(text, atomic, negated)`) or as an options object
(`new Pattern({ pattern, composite })`); both are rendered here as
explicit arguments. -/
def makePattern (text : String) (isAtomic : Bool) (isNegatedClass : Bool)
    (isComposite : Bool) : Pattern :=
  ⟨text, isAtomic, isNegatedClass, isComposite⟩

/-- The regex metacharacters the spec's Escaper must escape
(section 4.1): `. * + ? ( ) [ ] \x7b \x7d ^ $ | \\`. -/
def isRegexMetachar (c : Char) : Bool :=
  c = Char.ofNat 46 || c = Char.ofNat 42 || c = Char.ofNat 43 ||
  c = Char.ofNat 63 || c = Char.ofNat 40 || c = Char.ofNat 41 ||
  c = Char.ofNat 91 || c = Char.ofNat 93 || c = Char.ofNat 123 ||
  c = Char.ofNat 125 || c = Char.ofNat 94 || c = Char.ofNat 36 ||
  c = Char.ofNat 124 || c = Char.ofNat 92

/-- Escape one character: a metacharacter is preceded by a backslash,
every other character passes through unchanged. -/
def escapeChar (c : Char) : String :=
  if isRegexMetachar c then "\\" ++ String.singleton c else String.singleton c

/-- Modelled from the spec (section 4.1): `escapeLiteral(s)` escapes
every regex metacharacter of `s` so the result matches `s` verbatim. -/
def escapeLiteral (s : String) : String :=
  String.join (s.data.map escapeChar)

/-- Modelled from the spec (sections 4.1, 4.2): the literal constructor
`lit`, declared in `pattern.js` (not under the provided sources).  The
input is passed through `escapeLiteral` and the resulting Fragment is
marked non-atomic unless the escaped text is a single character. -/
def lit (s : String) : Pattern :=
  makePattern (escapeLiteral s) (decide ((escapeLiteral s).length = 1)) false false

/-- The repetition specification accepted by the quantifier applier
(`Pattern.call(minRep, maxRep)`): both arguments omitted, only `minRep`
given, or both given (spec section 4.3 defines exactly these shapes). -/
inductive Rep where
  | omitted
  | exact (min : Int)
  | range (min max : Int)
deriving DecidableEq, Repr

/-- Modelled from the spec (section 4.3): the quantifier applier
`quantify(fragment, min?, max?)`, realised in the code as
`Pattern.call(minRep, maxRep)` in `pattern.js` (not under the provided
sources).  Both omitted: the fragment is returned unchanged.  A
composite target, a negative bound, `min > max`, or a degenerate
zero-only quantifier (`min` given as exactly 0 alone, or both bounds 0)
is an `InvalidQuantifier` error.  Otherwise a non-atomic fragment is
wrapped in a non-capturing group before the suffix is appended, and the
result has all flags cleared. -/
def quantify (f : Pattern) (r : Rep) : Except STRlingError Pattern :=
  match r with
  | .omitted => .ok f
  | .exact min =>
      if f.isComposite then
        .error ⟨.invalidQuantifier, "cannot quantify a composite fragment"⟩
      else if min < 0 then
        .error ⟨.invalidQuantifier, "negative repetition count"⟩
      else if min = 0 then
        .error ⟨.invalidQuantifier, "degenerate zero-only quantifier"⟩
      else
        let base := if f.isAtomic then f.text else "(?:" ++ f.text ++ ")"
        .ok (makePattern (base ++ "\x7b" ++ toString min ++ "\x7d")
              false false false)
  | .range min max =>
      if f.isComposite then
        .error ⟨.invalidQuantifier, "cannot quantify a composite fragment"⟩
      else if min < 0 ∨ max < 0 then
        .error ⟨.invalidQuantifier, "negative repetition count"⟩
      else if min > max then
        .error ⟨.invalidQuantifier, "min exceeds max"⟩
      else if min = 0 ∧ max = 0 then
        .error ⟨.invalidQuantifier, "degenerate zero-only quantifier"⟩
      else
        let base := if f.isAtomic then f.text else "(?:" ++ f.text ++ ")"
        .ok (makePattern
              (base ++ "\x7b" ++ toString min ++ "," ++ toString max ++ "\x7d")
              false false false)

/-- Modelled from the spec (section 4.4): `merge(fragment...)`,
declared in `pattern.js` (not under the provided sources).  Zero
arguments is an `InvalidArgument` error; otherwise the texts are
concatenated in order, the result is non-atomic, and it is composite
iff the merge has more than one fragment with at least one composite
member. -/
def merge (fs : List Pattern) : Except STRlingError Pattern :=
  match fs with
  | [] => .error ⟨.invalidArgument, "merge requires at least one argument"⟩
  | _ :: _ =>
      .ok (makePattern (String.join (fs.map Pattern.text)) false false
            (decide (fs.length > 1) && fs.any Pattern.isComposite))

/-- The punctuation string passed to `lit` by `specialChar` and
`notSpecialChar` in `static.js`:
`` !"#$%&'()*+,-./:;<=>?@[\]^_`{|}~ `` (apostrophe, backtick and braces
written via their code points). -/
def specialChars : String :=
  "!\"#$%&" ++ String.singleton (Char.ofNat 39) ++ "()*+,-./:;<=>?@[\\]^_" ++
  String.singleton (Char.ofNat 96) ++ "\x7b|\x7d~"

/-- `alphaNum(minRep, maxRep)` from `static.js`:
`new Pattern('[A-Za-z0-9]', true).call(minRep, maxRep)`. -/
def alphaNum (r : Rep) : Except STRlingError Pattern :=
  quantify (makePattern "[A-Za-z0-9]" true false false) r

/-- `notAlphaNum(minRep, maxRep)` from `static.js`:
`new Pattern('[^A-Za-z0-9]', true, true).call(minRep, maxRep)`. -/
def notAlphaNum (r : Rep) : Except STRlingError Pattern :=
  quantify (makePattern "[^A-Za-z0-9]" true true false) r

/-- `specialChar(minRep, maxRep)` from `static.js`: builds
`[${lit(special)}]` (the interpolation coerces the literal Fragment to
its rendered text) with the atomic flag set. -/
def specialChar (r : Rep) : Except STRlingError Pattern :=
  quantify (makePattern ("[" ++ (lit specialChars).text ++ "]") true false false) r

/-- `notSpecialChar(minRep, maxRep)` from `static.js`: builds
`[^${lit(special)}]` with the atomic and negated-class flags set. -/
def notSpecialChar (r : Rep) : Except STRlingError Pattern :=
  quantify (makePattern ("[^" ++ (lit specialChars).text ++ "]") true true false) r

/-- `letter(minRep, maxRep)` from `static.js`:
`new Pattern('[A-Za-z]', true).call(minRep, maxRep)`. -/
def letter (r : Rep) : Except STRlingError Pattern :=
  quantify (makePattern "[A-Za-z]" true false false) r

/-- `notLetter(minRep, maxRep)` from `static.js`:
`new Pattern('[^A-Za-z]', true, true).call(minRep, maxRep)`. -/
def notLetter (r : Rep) : Except STRlingError Pattern :=
  quantify (makePattern "[^A-Za-z]" true true false) r

/-- `upper(minRep, maxRep)` from `static.js`:
`new Pattern('[A-Z]', true).call(minRep, maxRep)`. -/
def upper (r : Rep) : Except STRlingError Pattern :=
  quantify (makePattern "[A-Z]" true false false) r

/-- `notUpper(minRep, maxRep)` from `static.js`:
`new Pattern('[^A-Z]', true, true).call(minRep, maxRep)`. -/
def notUpper (r : Rep) : Except STRlingError Pattern :=
  quantify (makePattern "[^A-Z]" true true false) r

/-- `lower(minRep, maxRep)` from `static.js`:
`new Pattern('[a-z]', true).call(minRep, maxRep)`. -/
def lower (r : Rep) : Except STRlingError Pattern :=
  quantify (makePattern "[a-z]" true false false) r

/-- `notLower(minRep, maxRep)` from `static.js`:
`new Pattern('[^a-z]', true, true).call(minRep, maxRep)`. -/
def notLower (r : Rep) : Except STRlingError Pattern :=
  quantify (makePattern "[^a-z]" true true false) r

/-- `digit(minRep, maxRep)` from `static.js`:
`new Pattern('\\d').call(minRep, maxRep)` — no flag arguments. -/
def digit (r : Rep) : Except STRlingError Pattern :=
  quantify (makePattern "\\d" false false false) r

/-- `notDigit(minRep, maxRep)` from `static.js`:
`new Pattern('\\D').call(minRep, maxRep)` — no flag arguments. -/
def notDigit (r : Rep) : Except STRlingError Pattern :=
  quantify (makePattern "\\D" false false false) r

/-- `hexDigit(minRep, maxRep)` from `static.js`:
`new Pattern('[A-Fa-f\\d]').call(minRep, maxRep)` — no flag arguments. -/
def hexDigit (r : Rep) : Except STRlingError Pattern :=
  quantify (makePattern "[A-Fa-f\\d]" false false false) r

/-- `notHexDigit(minRep, maxRep)` from `static.js`:
`new Pattern('[^A-Fa-f\\d]').call(minRep, maxRep)` — no flag arguments. -/
def notHexDigit (r : Rep) : Except STRlingError Pattern :=
  quantify (makePattern "[^A-Fa-f\\d]" false false false) r

/-- `whitespace(minRep, maxRep)` from `static.js`: `\s`. -/
def whitespace (r : Rep) : Except STRlingError Pattern :=
  quantify (makePattern "\\s" false false false) r

/-- `notWhitespace(minRep, maxRep)` from `static.js`: `\S`. -/
def notWhitespace (r : Rep) : Except STRlingError Pattern :=
  quantify (makePattern "\\S" false false false) r

/-- `newline(minRep, maxRep)` from `static.js`: `\n`. -/
def newline (r : Rep) : Except STRlingError Pattern :=
  quantify (makePattern "\\n" false false false) r

/-- `notNewline(minRep, maxRep)` from `static.js`: built from `.`
(match any character), not a negated class of the newline character. -/
def notNewline (r : Rep) : Except STRlingError Pattern :=
  quantify (makePattern "." false false false) r

/-- `tab(minRep, maxRep)` from `static.js`: `\t`. -/
def tab (r : Rep) : Except STRlingError Pattern :=
  quantify (makePattern "\\t" false false false) r

/-- `notTab(minRep, maxRep)` from `static.js`: built from `\T` (the
source itself remarks that JavaScript does not support `\T`). -/
def notTab (r : Rep) : Except STRlingError Pattern :=
  quantify (makePattern "\\T" false false false) r

/-- `carriage(minRep, maxRep)` from `static.js`: `\r`. -/
def carriage (r : Rep) : Except STRlingError Pattern :=
  quantify (makePattern "\\r" false false false) r

/-- `notCarriage(minRep, maxRep)` from `static.js`: built from `.`
(match any character), not a negated class of the carriage return. -/
def notCarriage (r : Rep) : Except STRlingError Pattern :=
  quantify (makePattern "." false false false) r

/-- `bound(minRep, maxRep)` from `static.js`: `\b`. -/
def bound (r : Rep) : Except STRlingError Pattern :=
  quantify (makePattern "\\b" false false false) r

/-- `notBound(minRep, maxRep)` from `static.js`: `\B`. -/
def notBound (r : Rep) : Except STRlingError Pattern :=
  quantify (makePattern "\\B" false false false) r

/-- `start()` from `static.js`: `new Pattern('^')`. -/
def start : Pattern := makePattern "^" false false false

/-- `end()` from `static.js` (renamed: `end` is reserved in Lean):
`new Pattern('$')`. -/
def endAnchor : Pattern := makePattern "$" false false false

/-- Modelled from the spec: the target regex dialect's semantics for
the single-token fragment texts at issue (the dialect itself is
external to the provided sources).  In the JavaScript dialect `\t` is
the tab character, `\T` is an identity escape denoting the literal
letter `T`, `\d` is any decimal digit, and `.` is any character other
than a line terminator. -/
def matchesToken (t : String) (c : Char) : Bool :=
  if t = "\\t" then c = Char.ofNat 9
  else if t = "\\T" then c = Char.ofNat 84
  else if t = "\\d" then c.isDigit
  else if t = "." then !(c = Char.ofNat 10)
  else false

/-- A JavaScript argument as the lookaround builders see it: a string,
a `Pattern` instance, or any other value (number, null, object, ...). -/
inductive JSValue where
  | str (s : String)
  | pat (p : Pattern)
  | other
deriving DecidableEq, Repr

/-- The error message thrown by each lookaround builder in `static.js`;
it names the offending method `simply.<name>(pattern)` and describes
the acceptable input shapes. -/
def lookaroundMessage (name : String) : String :=
  "\n    Method: simply." ++ name ++ "(pattern)\n\n    " ++
  "The parameter must be an instance of Pattern or string.\n\n    " ++
  "Use a string such as \"123abc$\" to match literal characters, " ++
  "or use a predefined set like simply.letter().\n    "

/-- `ahead(pattern)` from `static.js`: a string is first converted via
`lit`; a non-Pattern argument throws; otherwise the result is
`new Pattern(\x7b pattern: (?=...), composite: true \x7d)`. -/
def ahead (v : JSValue) : Except STRlingError Pattern :=
  let v := match v with
    | .str s => JSValue.pat (lit s)
    | x => x
  match v with
  | .pat p => .ok (makePattern ("(?=" ++ p.text ++ ")") false false true)
  | _ => .error ⟨.invalidArgument, lookaroundMessage "ahead"⟩

/-- `notAhead(pattern)` from `static.js`: renders `(?!P)`. -/
def notAhead (v : JSValue) : Except STRlingError Pattern :=
  let v := match v with
    | .str s => JSValue.pat (lit s)
    | x => x
  match v with
  | .pat p => .ok (makePattern ("(?!" ++ p.text ++ ")") false false true)
  | _ => .error ⟨.invalidArgument, lookaroundMessage "notAhead"⟩

/-- `behind(pattern)` from `static.js`: renders `(?<=P)`. -/
def behind (v : JSValue) : Except STRlingError Pattern :=
  let v := match v with
    | .str s => JSValue.pat (lit s)
    | x => x
  match v with
  | .pat p => .ok (makePattern ("(?<=" ++ p.text ++ ")") false false true)
  | _ => .error ⟨.invalidArgument, lookaroundMessage "behind"⟩

/-- `notBehind(pattern)` from `static.js`: renders `(?<!P)`. -/
def notBehind (v : JSValue) : Except STRlingError Pattern :=
  let v := match v with
    | .str s => JSValue.pat (lit s)
    | x => x
  match v with
  | .pat p => .ok (makePattern ("(?<!" ++ p.text ++ ")") false false true)
  | _ => .error ⟨.invalidArgument, lookaroundMessage "notBehind"⟩

/-- `has(pattern)` from `static.js`: renders `(?=.*P)`. -/
def has (v : JSValue) : Except STRlingError Pattern :=
  let v := match v with
    | .str s => JSValue.pat (lit s)
    | x => x
  match v with
  | .pat p => .ok (makePattern ("(?=.*" ++ p.text ++ ")") false false true)
  | _ => .error ⟨.invalidArgument, lookaroundMessage "has"⟩

/-- `hasNot(pattern)` from `static.js`: renders `(?!.*P)`. -/
def hasNot (v : JSValue) : Except STRlingError Pattern :=
  let v := match v with
    | .str s => JSValue.pat (lit s)
    | x => x
  match v with
  | .pat p => .ok (makePattern ("(?!.*" ++ p.text ++ ")") false false true)
  | _ => .error ⟨.invalidArgument, lookaroundMessage "hasNot"⟩

end STRling

/-- C1: each of the six lookaround constructors renders exactly the
specified form — `ahead` gives `(?=P)`, `notAhead` `(?!P)`, `behind`
`(?<=P)`, `notBehind` `(?<!P)`, `has` `(?=.*P)`, `hasNot` `(?!.*P)` —
for a `Pattern` argument and for a string argument (first converted to
a literal Pattern); in particular `ahead("abc")` renders `(?=abc)`,
`notAhead` of the digit fragment (text `\d`) renders `(?!\d)`, and
`has(lit("x"))` renders `(?=.*x)`. -/
theorem STRling.lookaround_rendered_forms : ∀ (p : STRling.Pattern) (s : String),
    STRling.ahead (.pat p)
      = .ok (STRling.makePattern ("(?=" ++ p.text ++ ")") false false true)
    ∧ STRling.notAhead (.pat p)
      = .ok (STRling.makePattern ("(?!" ++ p.text ++ ")") false false true)
    ∧ STRling.behind (.pat p)
      = .ok (STRling.makePattern ("(?<=" ++ p.text ++ ")") false false true)
    ∧ STRling.notBehind (.pat p)
      = .ok (STRling.makePattern ("(?<!" ++ p.text ++ ")") false false true)
    ∧ STRling.has (.pat p)
      = .ok (STRling.makePattern ("(?=.*" ++ p.text ++ ")") false false true)
    ∧ STRling.hasNot (.pat p)
      = .ok (STRling.makePattern ("(?!.*" ++ p.text ++ ")") false false true)
    ∧ STRling.ahead (.str s)
      = .ok (STRling.makePattern ("(?=" ++ (STRling.lit s).text ++ ")") false false true)
    ∧ STRling.notAhead (.str s)
      = .ok (STRling.makePattern ("(?!" ++ (STRling.lit s).text ++ ")") false false true)
    ∧ STRling.behind (.str s)
      = .ok (STRling.makePattern ("(?<=" ++ (STRling.lit s).text ++ ")") false false true)
    ∧ STRling.notBehind (.str s)
      = .ok (STRling.makePattern ("(?<!" ++ (STRling.lit s).text ++ ")") false false true)
    ∧ STRling.has (.str s)
      = .ok (STRling.makePattern ("(?=.*" ++ (STRling.lit s).text ++ ")") false false true)
    ∧ STRling.hasNot (.str s)
      = .ok (STRling.makePattern ("(?!.*" ++ (STRling.lit s).text ++ ")") false false true)
    ∧ (∃ q, STRling.ahead (.str "abc") = .ok q ∧ q.text = "(?=abc)")
    ∧ (∃ d q, STRling.digit .omitted = .ok d ∧ d.text = "\\d"
        ∧ STRling.notAhead (.pat d) = .ok q ∧ q.text = "(?!\\d)")
    ∧ (∃ q, STRling.has (.pat (STRling.lit "x")) = .ok q ∧ q.text = "(?=.*x)") := by
  intro p s
  exact ⟨rfl, rfl, rfl, rfl, rfl, rfl, rfl, rfl, rfl, rfl, rfl, rfl,
    ⟨_, rfl, rfl⟩, ⟨_, _, rfl, rfl, rfl, rfl⟩, ⟨_, rfl, rfl⟩⟩

/-- C2: for every valid input (string or Pattern), each of the six
lookaround operations returns a Fragment whose classification flags are
`isComposite = true`, `isAtomic = false`, `isNegatedClass = false`. -/
theorem STRling.lookaround_flags : ∀ (s : String) (p : STRling.Pattern),
    (∃ q, STRling.ahead (.str s) = .ok q
      ∧ q.isComposite = true ∧ q.isAtomic = false ∧ q.isNegatedClass = false)
    ∧ (∃ q, STRling.ahead (.pat p) = .ok q
      ∧ q.isComposite = true ∧ q.isAtomic = false ∧ q.isNegatedClass = false)
    ∧ (∃ q, STRling.notAhead (.str s) = .ok q
      ∧ q.isComposite = true ∧ q.isAtomic = false ∧ q.isNegatedClass = false)
    ∧ (∃ q, STRling.notAhead (.pat p) = .ok q
      ∧ q.isComposite = true ∧ q.isAtomic = false ∧ q.isNegatedClass = false)
    ∧ (∃ q, STRling.behind (.str s) = .ok q
      ∧ q.isComposite = true ∧ q.isAtomic = false ∧ q.isNegatedClass = false)
    ∧ (∃ q, STRling.behind (.pat p) = .ok q
      ∧ q.isComposite = true ∧ q.isAtomic = false ∧ q.isNegatedClass = false)
    ∧ (∃ q, STRling.notBehind (.str s) = .ok q
      ∧ q.isComposite = true ∧ q.isAtomic = false ∧ q.isNegatedClass = false)
    ∧ (∃ q, STRling.notBehind (.pat p) = .ok q
      ∧ q.isComposite = true ∧ q.isAtomic = false ∧ q.isNegatedClass = false)
    ∧ (∃ q, STRling.has (.str s) = .ok q
      ∧ q.isComposite = true ∧ q.isAtomic = false ∧ q.isNegatedClass = false)
    ∧ (∃ q, STRling.has (.pat p) = .ok q
      ∧ q.isComposite = true ∧ q.isAtomic = false ∧ q.isNegatedClass = false)
    ∧ (∃ q, STRling.hasNot (.str s) = .ok q
      ∧ q.isComposite = true ∧ q.isAtomic = false ∧ q.isNegatedClass = false)
    ∧ (∃ q, STRling.hasNot (.pat p) = .ok q
      ∧ q.isComposite = true ∧ q.isAtomic = false ∧ q.isNegatedClass = false) := by
  intro s p
  refine ⟨?_, ?_, ?_, ?_, ?_, ?_, ?_, ?_, ?_, ?_, ?_, ?_⟩ <;>
    exact ⟨_, rfl, rfl, rfl, rfl⟩

/-- C3: each of the six lookaround operations fails (with the
InvalidArgument-classified STRlingError) iff its argument is neither a
string nor a Pattern instance; the error message names the offending
operation (`simply.<name>` occurs in it); a string argument is first
converted via the literal constructor and the call then succeeds. -/
theorem STRling.lookaround_validation : ∀ (v : STRling.JSValue) (s : String),
    ((∃ e, STRling.ahead v = .error e) ↔ v = .other)
    ∧ ((∃ e, STRling.notAhead v = .error e) ↔ v = .other)
    ∧ ((∃ e, STRling.behind v = .error e) ↔ v = .other)
    ∧ ((∃ e, STRling.notBehind v = .error e) ↔ v = .other)
    ∧ ((∃ e, STRling.has v = .error e) ↔ v = .other)
    ∧ ((∃ e, STRling.hasNot v = .error e) ↔ v = .other)
    ∧ (∃ e, STRling.ahead .other = .error e ∧ e.kind = .invalidArgument
        ∧ ∃ a b, e.message = a ++ "simply.ahead" ++ b)
    ∧ (∃ e, STRling.notAhead .other = .error e ∧ e.kind = .invalidArgument
        ∧ ∃ a b, e.message = a ++ "simply.notAhead" ++ b)
    ∧ (∃ e, STRling.behind .other = .error e ∧ e.kind = .invalidArgument
        ∧ ∃ a b, e.message = a ++ "simply.behind" ++ b)
    ∧ (∃ e, STRling.notBehind .other = .error e ∧ e.kind = .invalidArgument
        ∧ ∃ a b, e.message = a ++ "simply.notBehind" ++ b)
    ∧ (∃ e, STRling.has .other = .error e ∧ e.kind = .invalidArgument
        ∧ ∃ a b, e.message = a ++ "simply.has" ++ b)
    ∧ (∃ e, STRling.hasNot .other = .error e ∧ e.kind = .invalidArgument
        ∧ ∃ a b, e.message = a ++ "simply.hasNot" ++ b)
    ∧ STRling.ahead (.str s) = STRling.ahead (.pat (STRling.lit s))
    ∧ STRling.notAhead (.str s) = STRling.notAhead (.pat (STRling.lit s))
    ∧ STRling.behind (.str s) = STRling.behind (.pat (STRling.lit s))
    ∧ STRling.notBehind (.str s) = STRling.notBehind (.pat (STRling.lit s))
    ∧ STRling.has (.str s) = STRling.has (.pat (STRling.lit s))
    ∧ STRling.hasNot (.str s) = STRling.hasNot (.pat (STRling.lit s))
    ∧ (STRling.ahead (.str s)).isOk = true
    ∧ (STRling.notAhead (.str s)).isOk = true
    ∧ (STRling.behind (.str s)).isOk = true
    ∧ (STRling.notBehind (.str s)).isOk = true
    ∧ (STRling.has (.str s)).isOk = true
    ∧ (STRling.hasNot (.str s)).isOk = true := by
  intro v s
  refine ⟨?_, ?_, ?_, ?_, ?_, ?_,
    ⟨_, rfl, rfl, "\n    Method: ", _, rfl⟩,
    ⟨_, rfl, rfl, "\n    Method: ", _, rfl⟩,
    ⟨_, rfl, rfl, "\n    Method: ", _, rfl⟩,
    ⟨_, rfl, rfl, "\n    Method: ", _, rfl⟩,
    ⟨_, rfl, rfl, "\n    Method: ", _, rfl⟩,
    ⟨_, rfl, rfl, "\n    Method: ", _, rfl⟩,
    rfl, rfl, rfl, rfl, rfl, rfl, rfl, rfl, rfl, rfl, rfl, rfl⟩ <;>
  · cases v <;> simp [STRling.ahead, STRling.notAhead, STRling.behind,
      STRling.notBehind, STRling.has, STRling.hasNot]

/-- C4: `notNewline` and `notCarriage` both fall back to the "match any
character" fragment text `.` rather than a true negated class, so for
every repetition argument the two operations produce identical
results. -/
theorem STRling.notNewline_notCarriage_any_char : ∀ (r : STRling.Rep),
    STRling.notNewline r
      = STRling.quantify (STRling.makePattern "." false false false) r
    ∧ STRling.notCarriage r
      = STRling.quantify (STRling.makePattern "." false false false) r
    ∧ STRling.notNewline r = STRling.notCarriage r
    ∧ STRling.notNewline .omitted = .ok (STRling.makePattern "." false false false)
    ∧ STRling.notCarriage .omitted = .ok (STRling.makePattern "." false false false) := by
  intro r
  exact ⟨rfl, rfl, rfl, rfl, rfl⟩

/-- C5: `quantify` (invoked by every named-class factory via
`Pattern.call(minRep, maxRep)`) fails with InvalidQuantifier exactly
when the repetition spec is invalid: a negative min or max, min greater
than max, a degenerate zero-only quantifier (both bounds zero, or min
given as exactly 0 alone), or the target fragment being composite while
a repetition is requested; in particular `quantify(f, 0, 0)`, any
`min > max` call, and `quantify(compositeFragment, 1)` fail with
InvalidQuantifier. -/
theorem STRling.quantify_invalid_iff : ∀ (f : STRling.Pattern) (m a b : Int),
    STRling.quantify f .omitted = .ok f
    ∧ ((∃ e, STRling.quantify f (.exact m) = .error e)
        ↔ (f.isComposite = true ∨ m < 0 ∨ m = 0))
    ∧ ((∃ e, STRling.quantify f (.range a b) = .error e)
        ↔ (f.isComposite = true ∨ a < 0 ∨ b < 0 ∨ a > b ∨ (a = 0 ∧ b = 0)))
    ∧ (∀ e, STRling.quantify f (.exact m) = .error e
        → e.kind = .invalidQuantifier)
    ∧ (∀ e, STRling.quantify f (.range a b) = .error e
        → e.kind = .invalidQuantifier)
    ∧ (∃ e, STRling.quantify (STRling.makePattern "\\d" false false false)
        (.range 0 0) = .error e ∧ e.kind = .invalidQuantifier)
    ∧ (∃ e, STRling.quantify (STRling.makePattern "(?=a)" false false true)
        (.exact 1) = .error e ∧ e.kind = .invalidQuantifier)
    ∧ (∃ e, STRling.quantify (STRling.makePattern "\\d" false false false)
        (.range 3 2) = .error e ∧ e.kind = .invalidQuantifier) := by
  intro f m a b
  refine ⟨rfl, ?_, ?_, ?_, ?_, ⟨_, rfl, rfl⟩, ⟨_, rfl, rfl⟩, ⟨_, rfl, rfl⟩⟩
  · simp only [STRling.quantify]
    split_ifs <;> simp_all
  · simp only [STRling.quantify]
    split_ifs <;> simp_all
    omega
  · simp only [STRling.quantify]
    split_ifs <;> intro e h <;> cases h <;> rfl
  · simp only [STRling.quantify]
    split_ifs <;> intro e h <;> cases h <;> rfl

/-- Witness for C5: the iff and the kind implication evaluated at the
concrete degenerate call `quantify(digitFragment, 0, 0)` and at
`quantify(digitFragment, 0)` (min given as exactly 0 alone). -/
theorem STRling.quantify_invalid_iff_witness :
    ((∃ e, STRling.quantify (STRling.makePattern "\\d" false false false)
        (.range 0 0) = .error e)
      ↔ ((STRling.makePattern "\\d" false false false).isComposite = true
          ∨ (0 : Int) < 0 ∨ (0 : Int) < 0 ∨ (0 : Int) > 0
          ∨ ((0 : Int) = 0 ∧ (0 : Int) = 0)))
    ∧ (⟨.invalidQuantifier, "degenerate zero-only quantifier"⟩
        : STRling.STRlingError).kind = .invalidQuantifier := by
  refine ⟨?_, ?_⟩
  · exact (STRling.quantify_invalid_iff
      (STRling.makePattern "\\d" false false false) 0 0 0).2.2.1
  · exact (STRling.quantify_invalid_iff
      (STRling.makePattern "\\d" false false false) 0 0 0).2.2.2.1
      ⟨.invalidQuantifier, "degenerate zero-only quantifier"⟩ rfl

/-- C6: `merge()` with zero arguments fails with InvalidArgument; for
every Fragment `f`, `merge(f)` returns a Fragment whose text equals
`f.text` but whose `isAtomic` flag is false even when `f` was atomic. -/
theorem STRling.merge_zero_and_single : ∀ (f : STRling.Pattern),
    (∃ e, STRling.merge [] = .error e ∧ e.kind = .invalidArgument)
    ∧ STRling.merge [f] = .ok (STRling.makePattern f.text false false false)
    ∧ (∃ q, STRling.merge [f] = .ok q ∧ q.text = f.text ∧ q.isAtomic = false) := by
  intro f
  exact ⟨⟨_, rfl, rfl⟩, rfl, ⟨_, rfl, rfl, rfl⟩⟩

/-- C7: every error is a value produced directly at the call that
detects the violation — an erroring lookaround call pins its argument
to the invalid shape and its error to the fixed validation error, an
erroring `quantify` call always carries the InvalidQuantifier kind and
never occurs with both repetition arguments omitted, an erroring
`merge` call only occurs on the empty argument list — and a failed
call is atomic: it yields no Fragment at all. -/
theorem STRling.errors_synchronous_atomic : ∀ (v : STRling.JSValue)
    (f : STRling.Pattern) (r : STRling.Rep) (fs : List STRling.Pattern)
    (e : STRling.STRlingError),
    (STRling.ahead v = .error e →
      v = .other ∧ e = ⟨.invalidArgument, STRling.lookaroundMessage "ahead"⟩
      ∧ ∀ q, STRling.ahead v ≠ .ok q)
    ∧ (STRling.notAhead v = .error e →
      v = .other ∧ e = ⟨.invalidArgument, STRling.lookaroundMessage "notAhead"⟩
      ∧ ∀ q, STRling.notAhead v ≠ .ok q)
    ∧ (STRling.behind v = .error e →
      v = .other ∧ e = ⟨.invalidArgument, STRling.lookaroundMessage "behind"⟩
      ∧ ∀ q, STRling.behind v ≠ .ok q)
    ∧ (STRling.notBehind v = .error e →
      v = .other ∧ e = ⟨.invalidArgument, STRling.lookaroundMessage "notBehind"⟩
      ∧ ∀ q, STRling.notBehind v ≠ .ok q)
    ∧ (STRling.has v = .error e →
      v = .other ∧ e = ⟨.invalidArgument, STRling.lookaroundMessage "has"⟩
      ∧ ∀ q, STRling.has v ≠ .ok q)
    ∧ (STRling.hasNot v = .error e →
      v = .other ∧ e = ⟨.invalidArgument, STRling.lookaroundMessage "hasNot"⟩
      ∧ ∀ q, STRling.hasNot v ≠ .ok q)
    ∧ (STRling.quantify f r = .error e →
      r ≠ .omitted ∧ e.kind = .invalidQuantifier
      ∧ ∀ q, STRling.quantify f r ≠ .ok q)
    ∧ (STRling.merge fs = .error e →
      fs = [] ∧ e.kind = .invalidArgument ∧ ∀ q, STRling.merge fs ≠ .ok q) := by
  intro v f r fs e
  refine ⟨?_, ?_, ?_, ?_, ?_, ?_, ?_, ?_⟩
  · cases v <;> intro h <;> simp_all [STRling.ahead]
  · cases v <;> intro h <;> simp_all [STRling.notAhead]
  · cases v <;> intro h <;> simp_all [STRling.behind]
  · cases v <;> intro h <;> simp_all [STRling.notBehind]
  · cases v <;> intro h <;> simp_all [STRling.has]
  · cases v <;> intro h <;> simp_all [STRling.hasNot]
  · intro h
    have hq : ∀ q, STRling.quantify f r ≠ .ok q := by
      intro q hq
      rw [h] at hq
      exact Except.noConfusion hq
    refine ⟨?_, ?_, hq⟩
    · intro hr
      subst hr
      exact Except.noConfusion h
    · cases r
      · exact absurd h (by simp [STRling.quantify])
      · simp only [STRling.quantify] at h
        split_ifs at h <;> cases h <;> rfl
      · simp only [STRling.quantify] at h
        split_ifs at h <;> cases h <;> rfl
  · cases fs
    · intro h
      cases h
      exact ⟨rfl, rfl, fun q hq => Except.noConfusion hq⟩
    · intro h
      simp_all [STRling.merge]

/-- Witness for C7: the theorem applied at the concrete erroring calls
`ahead` of a non-Pattern value, `quantify(digitFragment, 0)` and
`merge()`. -/
theorem STRling.errors_synchronous_atomic_witness :
    (STRling.JSValue.other = STRling.JSValue.other
      ∧ (⟨.invalidArgument, STRling.lookaroundMessage "ahead"⟩
          : STRling.STRlingError)
        = ⟨.invalidArgument, STRling.lookaroundMessage "ahead"⟩
      ∧ ∀ q, STRling.ahead .other ≠ .ok q)
    ∧ (STRling.Rep.exact 0 ≠ STRling.Rep.omitted
      ∧ (⟨.invalidQuantifier, "degenerate zero-only quantifier"⟩
          : STRling.STRlingError).kind = .invalidQuantifier
      ∧ ∀ q, STRling.quantify (STRling.makePattern "\\d" false false false)
          (.exact 0) ≠ .ok q)
    ∧ (([] : List STRling.Pattern) = []
      ∧ (⟨.invalidArgument, "merge requires at least one argument"⟩
          : STRling.STRlingError).kind = .invalidArgument
      ∧ ∀ q, STRling.merge [] ≠ .ok q) := by
  refine ⟨?_, ?_, ?_⟩
  · exact (STRling.errors_synchronous_atomic .other
      (STRling.makePattern "" false false false) .omitted []
      ⟨.invalidArgument, STRling.lookaroundMessage "ahead"⟩).1 rfl
  · exact (STRling.errors_synchronous_atomic .other
      (STRling.makePattern "\\d" false false false) (.exact 0) []
      ⟨.invalidQuantifier, "degenerate zero-only quantifier"⟩).2.2.2.2.2.2.1 rfl
  · exact (STRling.errors_synchronous_atomic .other
      (STRling.makePattern "" false false false) .omitted []
      ⟨.invalidArgument, "merge requires at least one argument"⟩).2.2.2.2.2.2.2 rfl

/-- C8: all public operations are referentially transparent and
deterministic — equal arguments give equal results — and every
transformation (lookaround-wrap, quantify, merge) returns a new
Fragment whose text and flags are fixed functions of the inputs, with
no mutation of any input Fragment. -/
theorem STRling.operations_pure_deterministic : ∀ (x y : STRling.JSValue)
    (f g : STRling.Pattern) (m a b : Int),
    (x = y → STRling.ahead x = STRling.ahead y
      ∧ STRling.notAhead x = STRling.notAhead y
      ∧ STRling.behind x = STRling.behind y
      ∧ STRling.notBehind x = STRling.notBehind y
      ∧ STRling.has x = STRling.has y
      ∧ STRling.hasNot x = STRling.hasNot y)
    ∧ STRling.ahead (.pat f) = .ok ⟨"(?=" ++ f.text ++ ")", false, false, true⟩
    ∧ STRling.notAhead (.pat f) = .ok ⟨"(?!" ++ f.text ++ ")", false, false, true⟩
    ∧ STRling.behind (.pat f) = .ok ⟨"(?<=" ++ f.text ++ ")", false, false, true⟩
    ∧ STRling.notBehind (.pat f) = .ok ⟨"(?<!" ++ f.text ++ ")", false, false, true⟩
    ∧ STRling.has (.pat f) = .ok ⟨"(?=.*" ++ f.text ++ ")", false, false, true⟩
    ∧ STRling.hasNot (.pat f) = .ok ⟨"(?!.*" ++ f.text ++ ")", false, false, true⟩
    ∧ (f.isComposite = false → 0 < m →
        STRling.quantify f (.exact m) = .ok
          ⟨(if f.isAtomic then f.text else "(?:" ++ f.text ++ ")")
              ++ "\x7b" ++ toString m ++ "\x7d", false, false, false⟩)
    ∧ (f.isComposite = false → 0 ≤ a → a ≤ b → 0 < b →
        STRling.quantify f (.range a b) = .ok
          ⟨(if f.isAtomic then f.text else "(?:" ++ f.text ++ ")")
              ++ "\x7b" ++ toString a ++ "," ++ toString b ++ "\x7d",
            false, false, false⟩)
    ∧ STRling.merge [f, g] = .ok ⟨f.text ++ g.text, false, false,
        f.isComposite || g.isComposite⟩ := by
  intro x y f g m a b
  refine ⟨?_, rfl, rfl, rfl, rfl, rfl, rfl, ?_, ?_, ?_⟩
  · intro h
    subst h
    exact ⟨rfl, rfl, rfl, rfl, rfl, rfl⟩
  · intro hc hm
    simp only [STRling.quantify, hc]
    rw [if_neg (by simp), if_neg (by omega), if_neg (by omega)]
    rfl
  · intro hc ha hab hb
    simp only [STRling.quantify, hc]
    rw [if_neg (by simp), if_neg (by omega), if_neg (by omega),
      if_neg (by omega)]
    rfl
  · simp [STRling.merge, STRling.makePattern, String.join]

/-- Witness for C8: the theorem applied at the string argument `"a"`
taken twice and at the concrete quantified calls `digit` exactly 3 and
`digit` between 2 and 4. -/
theorem STRling.operations_pure_deterministic_witness :
    (STRling.ahead (.str "a") = STRling.ahead (.str "a")
      ∧ STRling.notAhead (.str "a") = STRling.notAhead (.str "a")
      ∧ STRling.behind (.str "a") = STRling.behind (.str "a")
      ∧ STRling.notBehind (.str "a") = STRling.notBehind (.str "a")
      ∧ STRling.has (.str "a") = STRling.has (.str "a")
      ∧ STRling.hasNot (.str "a") = STRling.hasNot (.str "a"))
    ∧ STRling.quantify (STRling.makePattern "\\d" false false false)
        (.exact 3) = .ok
        ⟨(if (STRling.makePattern "\\d" false false false).isAtomic
            then (STRling.makePattern "\\d" false false false).text
            else "(?:" ++ (STRling.makePattern "\\d" false false false).text ++ ")")
            ++ "\x7b" ++ toString (3 : Int) ++ "\x7d", false, false, false⟩
    ∧ STRling.quantify (STRling.makePattern "\\d" false false false)
        (.range 2 4) = .ok
        ⟨(if (STRling.makePattern "\\d" false false false).isAtomic
            then (STRling.makePattern "\\d" false false false).text
            else "(?:" ++ (STRling.makePattern "\\d" false false false).text ++ ")")
            ++ "\x7b" ++ toString (2 : Int) ++ ","
            ++ toString (4 : Int) ++ "\x7d", false, false, false⟩ := by
  refine ⟨?_, ?_, ?_⟩
  · exact (STRling.operations_pure_deterministic (.str "a") (.str "a")
      (STRling.makePattern "\\d" false false false)
      (STRling.makePattern "" false false false) 3 2 4).1 rfl
  · exact (STRling.operations_pure_deterministic (.str "a") (.str "a")
      (STRling.makePattern "\\d" false false false)
      (STRling.makePattern "" false false false) 3 2 4).2.2.2.2.2.2.2.1
      rfl (by decide)
  · exact (STRling.operations_pure_deterministic (.str "a") (.str "a")
      (STRling.makePattern "\\d" false false false)
      (STRling.makePattern "" false false false) 3 2 4).2.2.2.2.2.2.2.2.1
      rfl (by decide) (by decide) (by decide)

/-- C9: for all repetition arguments `notTab` is built from the
fragment text `\T` while `tab` is built from `\t`; in the target
dialect `\T` is an identity escape denoting the literal letter `T`
(code point 84), not the complement of the tab character (code
point 9), so notTab's fragment does not denote "any character that is
not a tab". -/
theorem STRling.notTab_literal_T : ∀ (r : STRling.Rep) (c : Char),
    STRling.notTab r
      = STRling.quantify (STRling.makePattern "\\T" false false false) r
    ∧ STRling.tab r
      = STRling.quantify (STRling.makePattern "\\t" false false false) r
    ∧ (∃ p, STRling.notTab .omitted = .ok p ∧ p.text = "\\T")
    ∧ (∃ p, STRling.tab .omitted = .ok p ∧ p.text = "\\t")
    ∧ "\\T" ≠ "\\t"
    ∧ (STRling.matchesToken "\\T" c = true ↔ c = Char.ofNat 84)
    ∧ (STRling.matchesToken "\\t" c = true ↔ c = Char.ofNat 9)
    ∧ ¬(∀ d : Char, STRling.matchesToken "\\T" d = true ↔ d ≠ Char.ofNat 9) := by
  intro r c
  refine ⟨rfl, rfl, ⟨_, rfl, rfl⟩, ⟨_, rfl, rfl⟩, by decide, ?_, ?_, ?_⟩
  · simp [STRling.matchesToken]
  · simp [STRling.matchesToken]
  · intro h
    have := (h (Char.ofNat 97)).mpr (by decide)
    simp [STRling.matchesToken] at this

/-- Witness for C9: the theorem applied at the omitted repetition and
the character `a` (code point 97), extracting the closed refutation of
"`\T` denotes any character that is not a tab". -/
theorem STRling.notTab_literal_T_witness :
    ¬(∀ d : Char, STRling.matchesToken "\\T" d = true ↔ d ≠ Char.ofNat 9) :=
  (STRling.notTab_literal_T .omitted (Char.ofNat 97)).2.2.2.2.2.2.2

/-- C10: the negated-class factories `notAlphaNum`, `notSpecialChar`,
`notLetter`, `notUpper` and `notLower` construct their Pattern with the
negated-class flag set (third constructor argument true), whereas
`notDigit` and `notHexDigit` construct `\D` and `[^A-Fa-f\d]` with no
flag arguments at all, so their results are not marked as negated
classes. -/
theorem STRling.negated_class_flags : ∀ (r : STRling.Rep),
    STRling.notAlphaNum r
      = STRling.quantify (STRling.makePattern "[^A-Za-z0-9]" true true false) r
    ∧ STRling.notSpecialChar r
      = STRling.quantify (STRling.makePattern
          ("[^" ++ (STRling.lit STRling.specialChars).text ++ "]") true true false) r
    ∧ STRling.notLetter r
      = STRling.quantify (STRling.makePattern "[^A-Za-z]" true true false) r
    ∧ STRling.notUpper r
      = STRling.quantify (STRling.makePattern "[^A-Z]" true true false) r
    ∧ STRling.notLower r
      = STRling.quantify (STRling.makePattern "[^a-z]" true true false) r
    ∧ STRling.notDigit r
      = STRling.quantify (STRling.makePattern "\\D" false false false) r
    ∧ STRling.notHexDigit r
      = STRling.quantify (STRling.makePattern "[^A-Fa-f\\d]" false false false) r
    ∧ (∃ p, STRling.notAlphaNum .omitted = .ok p ∧ p.isNegatedClass = true)
    ∧ (∃ p, STRling.notSpecialChar .omitted = .ok p ∧ p.isNegatedClass = true)
    ∧ (∃ p, STRling.notLetter .omitted = .ok p ∧ p.isNegatedClass = true)
    ∧ (∃ p, STRling.notUpper .omitted = .ok p ∧ p.isNegatedClass = true)
    ∧ (∃ p, STRling.notLower .omitted = .ok p ∧ p.isNegatedClass = true)
    ∧ (∃ p, STRling.notDigit .omitted = .ok p ∧ p.isNegatedClass = false
        ∧ p.isAtomic = false ∧ p.isComposite = false)
    ∧ (∃ p, STRling.notHexDigit .omitted = .ok p ∧ p.isNegatedClass = false
        ∧ p.isAtomic = false ∧ p.isComposite = false) := by
  intro r
  exact ⟨rfl, rfl, rfl, rfl, rfl, rfl, rfl,
    ⟨_, rfl, rfl⟩, ⟨_, rfl, rfl⟩, ⟨_, rfl, rfl⟩, ⟨_, rfl, rfl⟩, ⟨_, rfl, rfl⟩,
    ⟨_, rfl, rfl, rfl, rfl⟩, ⟨_, rfl, rfl, rfl, rfl⟩⟩
